import Mathlib

/-!
Verification of `examples/agents/skills/pdf-processing/scripts/extract.py`,
a small script that extracts plain text from a PDF page by page.

The script is embedded shallowly.  The external pdfplumber library is an
opaque collaborator, so its behaviour on a given PDF is modelled as data:
the result of `pdfplumber.open` is either an exception message or the list
of per-page outcomes of `page.extract_text()`, and the act of writing the
output file either succeeds or raises.  The observable behaviour of one
invocation (standard output, standard error, the completed file write, the
exit status, and acquisition/release of the document handle) is collected
in an `Outcome` record.
-/

/-- Outcome of `page.extract_text()` for one page: either the message of a
raised exception, or the value pdfplumber returns (`none` for no text, or
`some s` for a string `s`, possibly empty). -/
def PageResult : Type := Except String (Option String)

deriving instance DecidableEq for Except

instance : DecidableEq PageResult := by
  unfold PageResult; infer_instance

/-- Python truthiness of an optional string, as tested by `if text:` on
line 21 and by `if output_path:` on line 26 of extract.py: `None` and the
empty string are falsy, every other string is truthy. -/
def truthy : Option String → Bool
  | none => false
  | some s => !s.isEmpty

/-- Environment of one run: the behaviour of the opaque collaborators.
`doc` is what `pdfplumber.open(pdf_path)` produces for the input file
(an exception message, or the page sequence); `writeOk` is whether the
`open(output_path, 'w', encoding='utf-8')` / `f.write(result)` step
completes or raises. -/
structure Env where
  doc : Except String (List PageResult)
  writeOk : Except String Unit

/-- Observable behaviour of one invocation.  `stdout` is the list of strings
written to standard output (each `print` contributes its argument plus a
newline); `stderr` likewise for standard error; `fileWrite` is the completed
output-file write (path and full UTF-8 content), `none` when no file write
completed; `writeAttempted` records whether the output file was opened for
writing at all; `exitCode` is the process exit status; `docAcquired` and
`docReleased` record whether the pdfplumber document handle was acquired
and whether it was released (the `with` block closes it on every exit). -/
structure Outcome where
  stdout : List String
  stderr : List String
  fileWrite : Option (String × String)
  writeAttempted : Bool
  exitCode : Nat
  docAcquired : Bool
  docReleased : Bool
  deriving Repr, DecidableEq

/-- The progress notice printed to standard error for page `i` of `total`:
`f"Processing page {i}/{total}..."` in the source. -/
def progressLine (i total : Nat) : String :=
  "Processing page " ++ toString i ++ "/" ++ toString total ++ "..."

/-- The block appended for a page with truthy text:
`f"--- Page {i} ---\n{text}\n"` in the source. -/
def pageBlock (i : Nat) (text : String) : String :=
  "--- Page " ++ toString i ++ " ---\n" ++ text ++ "\n"

/-- The page marker line without the page text, i.e. `pageBlock` with the
trailing newline and the text stripped off. -/
def pageHeader (i : Nat) : String :=
  "--- Page " ++ toString i ++ " ---\n"

/-- State threaded through the page loop: progress lines printed to standard
error so far, and blocks appended to `text_content` so far. -/
structure LoopState where
  progress : List String
  blocks : List String
  deriving Repr, DecidableEq

/-- The page loop of `extract_text` (lines 18–22 of the source): for each
page, print the progress notice, then attempt extraction; a raised exception
aborts the loop carrying the state reached so far; a truthy text appends
`pageBlock`.  `i` is the 1-based ordinal of the first remaining page. -/
def runPages (total : Nat) : List PageResult → Nat → LoopState → Except (String × LoopState) LoopState
  | [], _, s => Except.ok s
  | p :: ps, i, s =>
    let s1 : LoopState := ⟨s.progress ++ [progressLine i total], s.blocks⟩
    match p with
    | Except.error e => Except.error (e, s1)
    | Except.ok t =>
        runPages total ps (i + 1)
          (if truthy t then ⟨s1.progress, s1.blocks ++ [pageBlock i (t.getD "")]⟩ else s1)

/-- Python's `sep.join(parts)`, used as `'\n'.join(text_content)` on line 24
of the source. -/
def pyJoin (sep : String) : List String → String
  | [] => ""
  | [b] => b
  | b :: c :: bs => b ++ sep ++ pyJoin sep (c :: bs)

/-- Shallow embedding of `extract_text(pdf_path, output_path=None)`
(lines 12–35 of the source).  `pdf_path` itself is only consumed by
`pdfplumber.open`, whose behaviour the environment already records, so the
parameter is otherwise unused here exactly as in the source.  Line 26 is
`if output_path:`, Python truthiness, so `None` and the empty string both
take the standard-output branch. -/
def extract_text (env : Env) (_pdf_path : String) (output_path : Option String) : Outcome :=
  match env.doc with
  | Except.error e =>
      { stdout := [], stderr := ["Error: " ++ e], fileWrite := none,
        writeAttempted := false, exitCode := 1, docAcquired := false, docReleased := false }
  | Except.ok pages =>
      match runPages pages.length pages 1 ⟨[], []⟩ with
      | Except.error (e, s) =>
          { stdout := [], stderr := s.progress ++ ["Error: " ++ e], fileWrite := none,
            writeAttempted := false, exitCode := 1, docAcquired := true, docReleased := true }
      | Except.ok s =>
          let result := pyJoin "\n" s.blocks
          if truthy output_path then
            match env.writeOk with
            | Except.error e =>
                { stdout := [], stderr := s.progress ++ ["Error: " ++ e], fileWrite := none,
                  writeAttempted := true, exitCode := 1, docAcquired := true, docReleased := true }
            | Except.ok _ =>
                { stdout := [],
                  stderr := s.progress ++ ["Text extracted to " ++ output_path.getD ""],
                  fileWrite := some (output_path.getD "", result), writeAttempted := true,
                  exitCode := 0, docAcquired := true, docReleased := true }
          else
            { stdout := [result ++ "\n"], stderr := s.progress, fileWrite := none,
              writeAttempted := false, exitCode := 0, docAcquired := true, docReleased := true }

/-- The module docstring, printed as usage text when the input argument is
missing. -/
def usageDoc : String :=
  "\nExtract text from a PDF file.\n\nUsage:\n    extract.py <input_pdf> [output_txt]\n"

/-- Shallow embedding of the `__main__` block (lines 37–45 of the source).
`argv` is `sys.argv`, so `argv.head?` is the script name, `argv[1]?` the
input PDF and `argv[2]?` the optional output path. -/
def mainEntry (argv : List String) (env : Env) : Outcome :=
  if argv.length < 2 then
    { stdout := [], stderr := [usageDoc], fileWrite := none,
      writeAttempted := false, exitCode := 1, docAcquired := false, docReleased := false }
  else
    extract_text env (argv.getD 1 "") argv[2]?

/-- Modelled from the spec: the per-page appends the spec describes in §4.1
step 3 — for each page ordinal `i` (starting at `start`), if extraction
yields non-empty text, record the pair of the ordinal and the text, else
record nothing for that page.  Used only to compare the source-derived
`runPages` with the spec's description. -/
def specAppended : Nat → List (Option String) → List (Nat × String)
  | _, [] => []
  | i, t :: ts =>
      (if truthy t then [(i, t.getD "")] else []) ++ specAppended (i + 1) ts

/-- The progress notices the page loop prints for pages numbered from `i`. -/
def progressFrom (total : Nat) : Nat → List (Option String) → List String
  | _, [] => []
  | i, _ :: ts => progressLine i total :: progressFrom total (i + 1) ts

/-- First exception raised while iterating the pages, if any. -/
def firstPageError : List PageResult → Option String
  | [] => none
  | Except.error e :: _ => some e
  | Except.ok _ :: ps => firstPageError ps

/-- The first failure an invocation of `extract_text` encounters: opening
the document, then the first page exception, then (only when the output
path is truthy, so that the write is actually attempted) the output
write. -/
def firstFailure (env : Env) (output_path : Option String) : Option String :=
  match env.doc with
  | Except.error e => some e
  | Except.ok pages =>
      match firstPageError pages with
      | some e => some e
      | none =>
          if truthy output_path then
            match env.writeOk with
            | Except.error e => some e
            | Except.ok _ => none
          else none

/-- Whether the extraction pass itself (opening the document or processing
some page) fails, before any output write is considered. -/
def extractionPassFails (env : Env) : Bool :=
  match env.doc with
  | Except.error _ => true
  | Except.ok pages => (firstPageError pages).isSome

/-- A file system: content of each path, `none` when the path is absent. -/
def FS : Type := String → Option String

/-- Opening the input file from the file system: a missing file raises, an
existing one is handed to the opaque parsing capability `parse`. -/
def openFromFs (parse : String → Except String (List PageResult)) (fs : FS)
    (pdf_path : String) : Except String (List PageResult) :=
  match fs pdf_path with
  | none => Except.error ("No such file or directory: " ++ pdf_path)
  | some bytes => parse bytes

/-- One whole run of the script against a file system: open the input via
`parse`, run `extract_text`, and apply its completed file write (mode `'w'`
overwrites) to the file system. -/
def runOnFs (parse : String → Except String (List PageResult))
    (writeOk : Except String Unit) (pdf_path : String)
    (output_path : Option String) (fs : FS) : FS :=
  match (extract_text ⟨openFromFs parse fs pdf_path, writeOk⟩ pdf_path output_path).fileWrite with
  | none => fs
  | some (p, c) => fun q => if q = p then some c else fs q

/-- Concrete page list used to exercise the theorems below. -/
def wTs : List (Option String) := [some "hello", none, some "", some "world"]

/-- Environment in which opening and every page and the write succeed. -/
def wEnvOk : Env := ⟨Except.ok (wTs.map Except.ok), Except.ok ()⟩

/-- Environment in which `pdfplumber.open` raises. -/
def wEnvOpenErr : Env := ⟨Except.error "boom", Except.ok ()⟩

/-- Environment in which page 2 raises during extraction. -/
def wEnvPageErr : Env :=
  ⟨Except.ok [Except.ok (some "a"), Except.error "bad page"], Except.ok ()⟩

/-- Environment in which every page yields no (or empty) text. -/
def wEnvAllEmpty : Env := ⟨Except.ok ([none, some ""].map Except.ok), Except.ok ()⟩

/-- A parsing capability for the file-system level run, constant in the
file content. -/
def wParse : String → Except String (List PageResult) :=
  fun _ => Except.ok [Except.ok (some "x")]

/-- A concrete file system holding only the input PDF. -/
def wFs : FS := fun p => if p = "in.pdf" then some "%PDF-1.4" else none

/-! ## Helper lemmas -/

lemma runPages_map_ok (total : Nat) (ts : List (Option String)) :
    ∀ i s, runPages total (ts.map Except.ok) i s =
      Except.ok ⟨s.progress ++ progressFrom total i ts,
        s.blocks ++ (specAppended i ts).map (fun q => pageBlock q.1 q.2)⟩ := by
  induction ts with
  | nil =>
      intro i s
      simp [runPages, progressFrom, specAppended]
  | cons t ts ih =>
      intro i s
      by_cases h : truthy t = true
      · simp [runPages, progressFrom, specAppended, h, ih, List.append_assoc]
      · simp at h
        simp [runPages, progressFrom, specAppended, h, ih, List.append_assoc]

lemma runPages_of_firstPageError (total : Nat) (ps : List PageResult) (e : String) :
    firstPageError ps = some e →
    ∀ i s, ∃ s', runPages total ps i s = Except.error (e, s') := by
  induction ps with
  | nil => intro h; simp [firstPageError] at h
  | cons p ps ih =>
      intro h i s
      cases p with
      | error e' =>
          simp [firstPageError] at h
          subst h
          exact ⟨⟨s.progress ++ [progressLine i total], s.blocks⟩, by simp [runPages]⟩
      | ok t =>
          simp [firstPageError] at h
          obtain ⟨s', hs'⟩ := ih h (i + 1)
            (if truthy t then ⟨s.progress ++ [progressLine i total],
              s.blocks ++ [pageBlock i (t.getD "")]⟩
             else ⟨s.progress ++ [progressLine i total], s.blocks⟩)
          refine ⟨s', ?_⟩
          simpa [runPages] using hs'

lemma runPages_of_no_pageError (total : Nat) (ps : List PageResult) :
    firstPageError ps = none →
    ∀ i s, ∃ s', runPages total ps i s = Except.ok s' := by
  induction ps with
  | nil => intro _ i s; exact ⟨s, rfl⟩
  | cons p ps ih =>
      intro h i s
      cases p with
      | error e' => simp [firstPageError] at h
      | ok t =>
          simp [firstPageError] at h
          obtain ⟨s', hs'⟩ := ih h (i + 1)
            (if truthy t then ⟨s.progress ++ [progressLine i total],
              s.blocks ++ [pageBlock i (t.getD "")]⟩
             else ⟨s.progress ++ [progressLine i total], s.blocks⟩)
          refine ⟨s', ?_⟩
          simpa [runPages] using hs'

lemma specAppended_le (ts : List (Option String)) :
    ∀ i, ∀ q ∈ specAppended i ts, i ≤ q.1 := by
  induction ts with
  | nil => simp [specAppended]
  | cons t ts ih =>
      intro i q hq
      by_cases h : truthy t = true
      · simp [specAppended, h] at hq
        rcases hq with hq | hq
        · simp [hq]
        · exact Nat.le_of_succ_le (ih (i + 1) q hq)
      · simp at h
        simp [specAppended, h] at hq
        exact Nat.le_of_succ_le (ih (i + 1) q hq)

lemma specAppended_chain (ts : List (Option String)) :
    ∀ i, List.Chain' (· < ·) ((specAppended i ts).map Prod.fst) := by
  induction ts with
  | nil => simp [specAppended]
  | cons t ts ih =>
      intro i
      by_cases h : truthy t = true
      · simp only [specAppended, h, if_pos, List.singleton_append, List.map_cons]
        refine List.chain'_cons'.mpr ⟨?_, ih (i + 1)⟩
        intro b hb
        obtain ⟨q, hq, rfl⟩ := List.mem_map.mp (List.mem_of_mem_head? hb)
        exact Nat.lt_of_succ_le (specAppended_le ts (i + 1) q hq)
      · simp at h
        simp only [specAppended, h]
        simpa using ih (i + 1)

lemma pyJoin_newline_blocks (bs : List String) (h : bs ≠ []) :
    pyJoin "\n" (bs.map (fun b => b ++ "\n")) = pyJoin "\n\n" bs ++ "\n" := by
  induction bs with
  | nil => cases h rfl
  | cons b bs ih =>
      cases bs with
      | nil => simp [pyJoin]
      | cons c cs =>
          have hnn : ("\n" : String) ++ "\n" = "\n\n" := rfl
          simp only [List.map_cons, pyJoin] at ih ⊢
          rw [ih (by simp), String.append_assoc b "\n" "\n", hnn]
          simp [String.append_assoc]

lemma specAppended_nil_of_falsy (ts : List (Option String))
    (h : ∀ t ∈ ts, truthy t = false) : ∀ i, specAppended i ts = [] := by
  induction ts with
  | nil => intro i; rfl
  | cons t ts ih =>
      intro i
      have ht : truthy t = false := h t (by simp)
      simp [specAppended, ht]
      exact ih (fun u hu => h u (by simp [hu])) (i + 1)

lemma truthy_some_of_ne (op : String) (hop : op ≠ "") : truthy (some op) = true := by
  have hemp : op.isEmpty = false := by
    rw [Bool.eq_false_iff]
    intro he
    exact hop ((String.isEmpty_iff op).mp he)
  simp [truthy, hemp]

lemma extract_text_fileWrite_path (env : Env) (p op : String) :
    (extract_text env p (some op)).fileWrite = none ∨
    ∃ c, (extract_text env p (some op)).fileWrite = some (op, c) := by
  cases hd : env.doc with
  | error e => left; simp [extract_text, hd]
  | ok pages =>
      cases hr : runPages pages.length pages 1 ⟨[], []⟩ with
      | error es =>
          obtain ⟨e, s⟩ := es
          left; simp [extract_text, hd, hr]
      | ok s =>
          by_cases ht : truthy (some op) = true
          · cases hw : env.writeOk with
            | error e => left; simp [extract_text, hd, hr, hw, ht]
            | ok u =>
                right
                exact ⟨pyJoin "\n" s.blocks, by simp [extract_text, hd, hr, hw, ht]⟩
          · simp only [Bool.not_eq_true] at ht
            left
            simp [extract_text, hd, hr, ht]

lemma runOnFs_apply_ne (parse : String → Except String (List PageResult))
    (w : Except String Unit) (pdf op : String) (fs : FS) (h : op ≠ pdf) :
    runOnFs parse w pdf (some op) fs pdf = fs pdf := by
  rcases extract_text_fileWrite_path ⟨openFromFs parse fs pdf, w⟩ pdf op with hn | ⟨c, hc⟩
  · simp [runOnFs, hn]
  · simp only [runOnFs, hc]
    rw [if_neg (fun he => h he.symm)]

/-! ## Claim theorems -/

/-- C1: for every page i (1-based), the loop of `extract_text` appends the
block `pageBlock i text` exactly when extraction yields truthy (non-empty)
text, appends nothing for empty/no text, and the appended blocks carry
strictly increasing page ordinals. -/
theorem extract_text_per_page_blocks (ts : List (Option String)) :
    runPages ts.length (ts.map Except.ok) 1 ⟨[], []⟩ =
      Except.ok ⟨progressFrom ts.length 1 ts,
        (specAppended 1 ts).map (fun q => pageBlock q.1 q.2)⟩ ∧
    List.Chain' (· < ·) ((specAppended 1 ts).map Prod.fst) := by
  refine ⟨?_, specAppended_chain ts 1⟩
  simpa using runPages_map_ok ts.length ts 1 ⟨[], []⟩

/-- C2: whatever step fails first (opening, a page, or the write), the
exception is caught at the top of `extract_text`, reported to standard
error as `Error: {message}`, and the process exits with status 1; nothing
reaches standard output. -/
theorem extract_text_failure_reported (env : Env) (p : String) (o : Option String)
    (e : String) (h : firstFailure env o = some e) :
    (extract_text env p o).exitCode = 1 ∧
    (extract_text env p o).stderr.getLast? = some ("Error: " ++ e) ∧
    (extract_text env p o).stdout = [] := by
  cases hd : env.doc with
  | error e' =>
      simp only [firstFailure, hd, Option.some.injEq] at h
      subst h
      simp [extract_text, hd]
  | ok pages =>
      simp only [firstFailure, hd] at h
      cases hp : firstPageError pages with
      | some e' =>
          rw [hp] at h
          simp only [Option.some.injEq] at h
          obtain ⟨s', hs'⟩ := runPages_of_firstPageError pages.length pages e' hp 1 ⟨[], []⟩
          subst h
          simp [extract_text, hd, hs', List.getLast?_concat]
      | none =>
          rw [hp] at h
          by_cases ht : truthy o = true
          · rw [if_pos ht] at h
            cases hw : env.writeOk with
            | error e' =>
                rw [hw] at h
                simp only [Option.some.injEq] at h
                obtain ⟨s', hs'⟩ := runPages_of_no_pageError pages.length pages hp 1 ⟨[], []⟩
                subst h
                simp [extract_text, hd, hs', hw, ht, List.getLast?_concat]
            | ok u =>
                rw [hw] at h
                simp at h
          · rw [if_neg ht] at h
            simp at h

lemma pyJoin_pageBlocks (l : List (Nat × String)) (h : l ≠ []) :
    pyJoin "\n" (l.map (fun q => pageBlock q.1 q.2)) =
      pyJoin "\n\n" (l.map (fun q => pageHeader q.1 ++ q.2)) ++ "\n" := by
  have h2 := pyJoin_newline_blocks (l.map (fun q => pageHeader q.1 ++ q.2))
    (by simpa using h)
  rw [List.map_map] at h2
  exact h2

/-- C3: the final result string is the appended blocks joined with a single
blank line between consecutive blocks: stripping the trailing newline off
each block, the result is exactly the stripped blocks joined by one blank
line (`"\n\n"`) followed by the final trailing newline. -/
theorem extract_text_result_blank_line_join (ts : List (Option String)) (env : Env)
    (p op : String) (hdoc : env.doc = Except.ok (ts.map Except.ok))
    (hw : env.writeOk = Except.ok ()) (hne : specAppended 1 ts ≠ [])
    (hop : op ≠ "") :
    (extract_text env p (some op)).fileWrite =
      some (op, pyJoin "\n\n"
        ((specAppended 1 ts).map (fun q => pageHeader q.1 ++ q.2)) ++ "\n") := by
  have ht : truthy (some op) = true := truthy_some_of_ne op hop
  have hrun := runPages_map_ok ts.length ts 1 ⟨[], []⟩
  simp [extract_text, hdoc, hrun, hw, ht, pyJoin_pageBlocks _ hne]

/-- C4 (amended): with a non-empty output path and a fully successful
extraction, nothing is printed to standard output, the destination file is
written with exactly the result string, and the confirmation notice goes to
standard error.  The original claim, for every supplied output path, fails
at the empty string: line 26 is `if output_path:`, so `""` is falsy and the
program takes the standard-output branch instead. -/
theorem extract_text_file_output (ts : List (Option String)) (env : Env) (p op : String)
    (hdoc : env.doc = Except.ok (ts.map Except.ok)) (hw : env.writeOk = Except.ok ())
    (hop : op ≠ "") :
    (extract_text env p (some op)).stdout = [] ∧
    (extract_text env p (some op)).fileWrite =
      some (op, pyJoin "\n" ((specAppended 1 ts).map (fun q => pageBlock q.1 q.2))) ∧
    (extract_text env p (some op)).stderr.getLast? =
      some ("Text extracted to " ++ op) := by
  have ht : truthy (some op) = true := truthy_some_of_ne op hop
  have hrun := runPages_map_ok ts.length ts 1 ⟨[], []⟩
  refine ⟨?_, ?_, ?_⟩ <;>
    simp [extract_text, hdoc, hrun, hw, ht, List.getLast?_concat]

/-- C5: with no output path and a successful extraction, the full result
string is printed to standard output and no file write is attempted. -/
theorem extract_text_stdout_output (ts : List (Option String)) (env : Env) (p : String)
    (hdoc : env.doc = Except.ok (ts.map Except.ok)) :
    (extract_text env p none).stdout =
      [pyJoin "\n" ((specAppended 1 ts).map (fun q => pageBlock q.1 q.2)) ++ "\n"] ∧
    (extract_text env p none).fileWrite = none ∧
    (extract_text env p none).writeAttempted = false := by
  have hrun := runPages_map_ok ts.length ts 1 ⟨[], []⟩
  refine ⟨?_, ?_, ?_⟩ <;> simp [extract_text, truthy, hdoc, hrun]

/-- C6: in the file-output case, if the extraction pass itself fails
(opening the document or processing some page), the output file is never
opened for writing and no file write completes. -/
theorem extract_text_no_file_on_pass_failure (env : Env) (p op : String)
    (h : extractionPassFails env = true) :
    (extract_text env p (some op)).writeAttempted = false ∧
    (extract_text env p (some op)).fileWrite = none := by
  cases hd : env.doc with
  | error e => simp [extract_text, hd]
  | ok pages =>
      simp only [extractionPassFails, hd] at h
      cases hp : firstPageError pages with
      | none => rw [hp] at h; simp at h
      | some e =>
          obtain ⟨s', hs'⟩ := runPages_of_firstPageError pages.length pages e hp 1 ⟨[], []⟩
          simp [extract_text, hd, hs']

/-- C7: invoked without an input-PDF argument, the program prints the usage
text to standard error and exits with status 1, acquiring no document
handle, printing nothing to standard output and writing no file. -/
theorem mainEntry_usage_on_missing_arg (argv : List String) (env : Env)
    (h : argv.length < 2) :
    mainEntry argv env =
      { stdout := [], stderr := [usageDoc], fileWrite := none,
        writeAttempted := false, exitCode := 1,
        docAcquired := false, docReleased := false } := by
  simp [mainEntry, h]

/-- C8: the document handle is released exactly when it was acquired; in
particular, on every exit path of `extract_text` (success or failure) an
acquired handle is released. -/
theorem extract_text_doc_released (env : Env) (p : String) (o : Option String) :
    (extract_text env p o).docReleased = (extract_text env p o).docAcquired := by
  cases hd : env.doc with
  | error e => simp [extract_text, hd]
  | ok pages =>
      cases hr : runPages pages.length pages 1 ⟨[], []⟩ with
      | error es =>
          obtain ⟨e, s⟩ := es
          simp [extract_text, hd, hr]
      | ok s =>
          cases ht : truthy o with
          | false => simp [extract_text, hd, hr, ht]
          | true =>
              cases hw : env.writeOk with
              | error e => simp [extract_text, hd, hr, ht, hw]
              | ok u => simp [extract_text, hd, hr, ht, hw]

/-- C9: running the whole script twice on the same input PDF with the same
output path is idempotent at the file-system level — the second run rewrites
the destination with byte-identical content, so the file system after two
runs equals the file system after one. -/
theorem runOnFs_idempotent (parse : String → Except String (List PageResult))
    (w : Except String Unit) (pdf op : String) (fs : FS) (h : op ≠ pdf) :
    runOnFs parse w pdf (some op) (runOnFs parse w pdf (some op) fs) =
      runOnFs parse w pdf (some op) fs := by
  have hfs1 : runOnFs parse w pdf (some op) fs pdf = fs pdf :=
    runOnFs_apply_ne parse w pdf op fs h
  have hsame : openFromFs parse (runOnFs parse w pdf (some op) fs) pdf
      = openFromFs parse fs pdf := by
    unfold openFromFs
    rw [hfs1]
  show (match (extract_text ⟨openFromFs parse
        (runOnFs parse w pdf (some op) fs) pdf, w⟩ pdf (some op)).fileWrite with
      | none => runOnFs parse w pdf (some op) fs
      | some (p, c) => fun q => if q = p then some c
          else runOnFs parse w pdf (some op) fs q)
      = runOnFs parse w pdf (some op) fs
  rw [hsame]
  rcases extract_text_fileWrite_path ⟨openFromFs parse fs pdf, w⟩ pdf op with hn | ⟨c, hc⟩
  · rw [hn]
  · rw [hc]
    funext q
    by_cases hq : q = op
    · subst hq
      have hop : runOnFs parse w pdf (some q) fs q = some c := by
        simp [runOnFs, hc]
      simp [hop]
    · simp [hq]

/-- C10 (amended): when no page yields non-empty text, the result string is
empty; a non-empty output path still gets its file written with empty
content and the confirmation notice still appears, while without an output
path a single newline is printed to standard output.  The original claim,
for every supplied output path, fails at the empty string: `""` is falsy to
line 26's `if output_path:`, so no file is written there either. -/
theorem extract_text_empty_result (ts : List (Option String)) (env : Env) (p op : String)
    (hdoc : env.doc = Except.ok (ts.map Except.ok))
    (hfalsy : ∀ t ∈ ts, truthy t = false)
    (hw : env.writeOk = Except.ok ()) (hop : op ≠ "") :
    (extract_text env p (some op)).fileWrite = some (op, "") ∧
    (extract_text env p (some op)).stderr.getLast? =
      some ("Text extracted to " ++ op) ∧
    (extract_text env p none).stdout = ["\n"] := by
  have ht : truthy (some op) = true := truthy_some_of_ne op hop
  have hrun := runPages_map_ok ts.length ts 1 ⟨[], []⟩
  have hnil := specAppended_nil_of_falsy ts hfalsy 1
  refine ⟨?_, ?_, ?_⟩
  · simp [extract_text, hdoc, hrun, hw, hnil, ht, pyJoin]
  · simp [extract_text, hdoc, hrun, hw, hnil, ht, pyJoin, List.getLast?_concat]
  · simp [extract_text, truthy, hdoc, hrun, hnil, pyJoin]

/-! ## Witnesses: each hypothesis-bearing claim theorem applied at a
concrete input -/

/-- Witness for C2 at a concrete environment whose document open raises. -/
theorem extract_text_failure_reported_witness :
    firstFailure wEnvOpenErr none = some "boom" ∧
    ((extract_text wEnvOpenErr "in.pdf" none).exitCode = 1 ∧
     (extract_text wEnvOpenErr "in.pdf" none).stderr.getLast? =
       some ("Error: " ++ "boom") ∧
     (extract_text wEnvOpenErr "in.pdf" none).stdout = []) :=
  ⟨rfl, extract_text_failure_reported wEnvOpenErr "in.pdf" none "boom" rfl⟩

/-- Witness for C3 at a concrete successful four-page environment. -/
theorem extract_text_result_blank_line_join_witness :
    specAppended 1 wTs ≠ [] ∧ ("out.txt" : String) ≠ "" ∧
    (extract_text wEnvOk "in.pdf" (some "out.txt")).fileWrite =
      some ("out.txt", pyJoin "\n\n"
        ((specAppended 1 wTs).map (fun q => pageHeader q.1 ++ q.2)) ++ "\n") :=
  ⟨by decide, by decide,
   extract_text_result_blank_line_join wTs wEnvOk "in.pdf" "out.txt" rfl rfl
     (by decide) (by decide)⟩

/-- Witness for the amended C4 at a concrete successful four-page
environment. -/
theorem extract_text_file_output_witness :
    ("out.txt" : String) ≠ "" ∧
    (extract_text wEnvOk "in.pdf" (some "out.txt")).stdout = [] ∧
    (extract_text wEnvOk "in.pdf" (some "out.txt")).fileWrite =
      some ("out.txt",
        pyJoin "\n" ((specAppended 1 wTs).map (fun q => pageBlock q.1 q.2))) ∧
    (extract_text wEnvOk "in.pdf" (some "out.txt")).stderr.getLast? =
      some ("Text extracted to " ++ "out.txt") :=
  ⟨by decide, extract_text_file_output wTs wEnvOk "in.pdf" "out.txt" rfl rfl (by decide)⟩

/-- Witness for C5 at a concrete successful four-page environment. -/
theorem extract_text_stdout_output_witness :
    (extract_text wEnvOk "in.pdf" none).stdout =
      [pyJoin "\n" ((specAppended 1 wTs).map (fun q => pageBlock q.1 q.2)) ++ "\n"] ∧
    (extract_text wEnvOk "in.pdf" none).fileWrite = none ∧
    (extract_text wEnvOk "in.pdf" none).writeAttempted = false :=
  extract_text_stdout_output wTs wEnvOk "in.pdf" rfl

/-- Witness for C6 at a concrete environment whose second page raises. -/
theorem extract_text_no_file_on_pass_failure_witness :
    extractionPassFails wEnvPageErr = true ∧
    ((extract_text wEnvPageErr "in.pdf" (some "out.txt")).writeAttempted = false ∧
     (extract_text wEnvPageErr "in.pdf" (some "out.txt")).fileWrite = none) :=
  ⟨rfl, extract_text_no_file_on_pass_failure wEnvPageErr "in.pdf" "out.txt" rfl⟩

/-- Witness for C7 at a one-element argument vector. -/
theorem mainEntry_usage_on_missing_arg_witness :
    (["extract.py"] : List String).length < 2 ∧
    mainEntry ["extract.py"] wEnvOk =
      { stdout := [], stderr := [usageDoc], fileWrite := none,
        writeAttempted := false, exitCode := 1,
        docAcquired := false, docReleased := false } :=
  ⟨by decide, mainEntry_usage_on_missing_arg ["extract.py"] wEnvOk (by decide)⟩

/-- Witness for C9 at a concrete parse capability and file system. -/
theorem runOnFs_idempotent_witness :
    ("out.txt" : String) ≠ "in.pdf" ∧
    runOnFs wParse (Except.ok ()) "in.pdf" (some "out.txt")
        (runOnFs wParse (Except.ok ()) "in.pdf" (some "out.txt") wFs) =
      runOnFs wParse (Except.ok ()) "in.pdf" (some "out.txt") wFs :=
  ⟨by decide,
   runOnFs_idempotent wParse (Except.ok ()) "in.pdf" "out.txt" wFs (by decide)⟩

/-- Witness for the amended C10 at a concrete environment whose pages all
yield no or empty text. -/
theorem extract_text_empty_result_witness :
    (∀ t ∈ ([none, some ""] : List (Option String)), truthy t = false) ∧
    ("out.txt" : String) ≠ "" ∧
    ((extract_text wEnvAllEmpty "in.pdf" (some "out.txt")).fileWrite =
        some ("out.txt", "") ∧
     (extract_text wEnvAllEmpty "in.pdf" (some "out.txt")).stderr.getLast? =
        some ("Text extracted to " ++ "out.txt") ∧
     (extract_text wEnvAllEmpty "in.pdf" none).stdout = ["\n"]) :=
  ⟨by decide, by decide,
   extract_text_empty_result [none, some ""] wEnvAllEmpty "in.pdf" "out.txt"
     rfl (by decide) rfl (by decide)⟩

/-! ## Counterexamples: the original C4 and C10, as stated for every
supplied output path, fail at the reachable empty-string path -/

/-- Counterexample to C4 as originally stated: supplying the empty string
as the output path (reachable as `extract.py in.pdf ""`) with a fully
successful extraction, the program takes the standard-output branch of
line 26: the result goes to standard output, no file is written, no
confirmation notice is emitted, and the exit status is 0. -/
theorem extract_text_file_output_counterexample :
    (extract_text wEnvOk "in.pdf" (some "")).fileWrite = none ∧
    (extract_text wEnvOk "in.pdf" (some "")).stdout ≠ [] ∧
    (extract_text wEnvOk "in.pdf" (some "")).writeAttempted = false ∧
    (extract_text wEnvOk "in.pdf" (some "")).exitCode = 0 := by
  refine ⟨rfl, ?_, rfl, rfl⟩
  decide

/-- Counterexample to C10 as originally stated: with the empty string as
the output path and no extractable text on any page, no file is written
and no confirmation is emitted; a single newline goes to standard
output. -/
theorem extract_text_empty_result_counterexample :
    (extract_text wEnvAllEmpty "in.pdf" (some "")).fileWrite = none ∧
    (extract_text wEnvAllEmpty "in.pdf" (some "")).writeAttempted = false ∧
    (extract_text wEnvAllEmpty "in.pdf" (some "")).stdout = ["\n"] := by
  exact ⟨rfl, rfl, rfl⟩
